import Mathlib

/-!
Verification of the collision resolution core of the Babylon.js repository:
`DefaultCollisionCoordinator.getNewPosition` and its recursive sweep
`_collideWithWorld` (src/packages/dev/core/src/Collisions/collisionCoordinator.ts).

The embedding works over exact rationals.  The `Collider` scratch object and
the per-mesh narrow-phase test live in collaborator files that are not part of
the sources at hand; those pieces are modelled from the specification and are
marked as such in their doc comments.  The coordinator itself is translated
line by line from `collisionCoordinator.ts`.
-/

namespace Babylon

/-- A 3-component vector with exact rational coordinates, standing for the
engine's `Vector3`. -/
structure Vector3 where
  x : ℚ
  y : ℚ
  z : ℚ
deriving DecidableEq

/-- Componentwise addition (`addToRef`). -/
def Vector3.add (a b : Vector3) : Vector3 :=
  ⟨a.x + b.x, a.y + b.y, a.z + b.z⟩

/-- Componentwise subtraction. -/
def Vector3.sub (a b : Vector3) : Vector3 :=
  ⟨a.x - b.x, a.y - b.y, a.z - b.z⟩

/-- Componentwise multiplication (`multiplyInPlace`). -/
def Vector3.multiply (a b : Vector3) : Vector3 :=
  ⟨a.x * b.x, a.y * b.y, a.z * b.z⟩

/-- Componentwise division (`divideToRef`). -/
def Vector3.divide (a b : Vector3) : Vector3 :=
  ⟨a.x / b.x, a.y / b.y, a.z / b.z⟩

/-- Scalar multiple of a vector. -/
def Vector3.scale (q : ℚ) (v : Vector3) : Vector3 :=
  ⟨q * v.x, q * v.y, q * v.z⟩

/-- Dot product. -/
def Vector3.dot (a b : Vector3) : ℚ :=
  a.x * b.x + a.y * b.y + a.z * b.z

/-- Squared Euclidean length. -/
def Vector3.lenSq (v : Vector3) : ℚ :=
  v.dot v

/-- The zero vector (`setAll(0)` result). -/
def Vector3.zero : Vector3 :=
  ⟨0, 0, 0⟩

/-- The source compares `velocity.length() <= closeDistance` with a real
square root; over the rationals we use the exactly equivalent condition
`0 ≤ d ∧ v·v ≤ d²` (for every `d`, `√(v·v) ≤ d` holds iff both conjuncts do,
because the length is nonnegative). -/
def Vector3.lengthLe (v : Vector3) (d : ℚ) : Prop :=
  0 ≤ d ∧ v.lenSq ≤ d ^ 2

instance (v : Vector3) (d : ℚ) : Decidable (v.lengthLe d) := by
  unfold Vector3.lengthLe
  infer_instance

/-- A candidate scene mesh, reduced to the fields the coordinator reads.
`id` stands for JavaScript reference identity (`mesh !== excludedMesh`);
`hasSubMeshes` is the truthiness of `mesh.subMeshes`. -/
structure Mesh where
  id : ℕ
  isEnabled : Bool
  checkCollisions : Bool
  hasSubMeshes : Bool
  collisionGroup : ℕ
  collisionMask : ℕ
deriving DecidableEq

/-- The moving body's scratch state.  The fields mirror the ones the
coordinator reads and writes on the engine's `Collider` (whose own source is a
collaborator file): `_radius`, `_retry`, `collisionMask`, `collisionFound`,
`collidedMesh`, `_initialVelocity`, `_initialPosition`, plus the sweep
bookkeeping (`basePoint`, `velocity`, `epsilon`) and the nearest collision
plane normal written by narrow-phase tests. -/
structure Collider where
  radius : Vector3
  retry : ℕ
  collisionMask : ℕ
  collisionFound : Bool
  collidedMesh : Option Mesh
  initialVelocity : Vector3
  initialPosition : Vector3
  basePoint : Vector3
  velocity : Vector3
  epsilon : ℚ
  nearestNormal : Vector3
deriving DecidableEq

/-- Modelled from the spec: the collider source file is not among the sources.
Per the spec, the sweep-reset operation (the collider's per-iteration
initialisation) stores the sweep position, velocity and proximity threshold
and resets the narrow-phase bookkeeping to "none found". -/
def Collider.resetSweep (c : Collider) (position velocity : Vector3) (closeDistance : ℚ) : Collider :=
  { c with
    basePoint := position
    velocity := velocity
    epsilon := closeDistance
    collisionFound := false }

/-- Modelled from the spec: the collider source file is not among the sources.
The slide response projects the velocity onto the plane tangent to the nearest
collision normal, cancelling the penetrating component; per the spec the
position is left unchanged and the zeroing for the non-sliding case is done by
the coordinator itself. -/
def Collider.getResponse (c : Collider) (_position velocity : Vector3) (_slideOnCollide : Bool) : Vector3 :=
  velocity.sub (Vector3.scale (velocity.dot c.nearestNormal / c.nearestNormal.dot c.nearestNormal) c.nearestNormal)

/-- The excluded mesh argument together with its (nullable) cached
`surroundingMeshes` list. -/
structure ExcludedMeshInfo where
  mesh : Mesh
  surroundingMeshes : Option (List Mesh)

/-- The coordinator's environment: the scene's mesh list, the per-mesh
narrow-phase test (`mesh._checkCollision(collider)`, a collaborator outside
the core, kept abstract as a function on the collider) and the engine's
`CollisionsEpsilon` constant. -/
structure Env where
  sceneMeshes : List Mesh
  checkCollision : Mesh → Collider → Collider
  collisionsEpsilon : ℚ

/-- `const closeDistance = AbstractEngine.CollisionsEpsilon * 10.0`. -/
def closeDistance (env : Env) : ℚ :=
  env.collisionsEpsilon * 10

/-- `const collisionMask = excludedMesh ? excludedMesh.collisionMask : collider.collisionMask`. -/
def effectiveMask (collider : Collider) (excludedMesh : Option ExcludedMeshInfo) : ℕ :=
  match excludedMesh with
  | some em => em.mesh.collisionMask
  | none => collider.collisionMask

/-- `const meshes = (excludedMesh && excludedMesh.surroundingMeshes) || this._scene.meshes`
(a present but empty `surroundingMeshes` array is truthy in JavaScript, so it
is used as is; only a null list falls back to the scene). -/
def candidateMeshes (env : Env) (excludedMesh : Option ExcludedMeshInfo) : List Mesh :=
  match excludedMesh with
  | some em => em.surroundingMeshes.getD env.sceneMeshes
  | none => env.sceneMeshes

/-- The per-mesh guard of the sweep loop:
`mesh.isEnabled() && mesh.checkCollisions && mesh.subMeshes && mesh !== excludedMesh && (collisionMask & mesh.collisionGroup) !== 0`. -/
def passesFilter (collisionMask : ℕ) (excludedMesh : Option ExcludedMeshInfo) (m : Mesh) : Bool :=
  m.isEnabled && m.checkCollisions && m.hasSubMeshes &&
    (match excludedMesh with
     | some em => decide (m.id ≠ em.mesh.id)
     | none => true) &&
    decide (collisionMask &&& m.collisionGroup ≠ 0)

/-- The mesh loop of `_collideWithWorld`: each candidate passing the guard is
handed to its narrow-phase test, which updates the collider. -/
def runSweep (env : Env) (collisionMask : ℕ) (excludedMesh : Option ExcludedMeshInfo)
    (meshes : List Mesh) (c : Collider) : Collider :=
  meshes.foldl (fun acc m => if passesFilter collisionMask excludedMesh m then env.checkCollision m acc else acc) c

/-- One full sweep iteration of `_collideWithWorld`: mask selection, collider
sweep reset, candidate-set selection and the mesh loop, in source order. -/
def sweepStep (env : Env) (position velocity : Vector3) (collider : Collider)
    (excludedMesh : Option ExcludedMeshInfo) : Collider :=
  runSweep env (effectiveMask collider excludedMesh) excludedMesh (candidateMeshes env excludedMesh)
    (collider.resetSweep position velocity (closeDistance env))

/-- The velocity after the response block of `_collideWithWorld`: when some
component is nonzero the response is computed, and with `slideOnCollide`
false the velocity is zeroed outright (`velocity.setAll(0)`). -/
def postVelocity (swept : Collider) (position velocity : Vector3) (slideOnCollide : Bool) : Vector3 :=
  if velocity.x ≠ 0 ∨ velocity.y ≠ 0 ∨ velocity.z ≠ 0 then
    if slideOnCollide then swept.getResponse position velocity slideOnCollide else Vector3.zero
  else velocity

/-- `_collideWithWorld`, with an explicit fuel argument standing for the
recursion depth still allowed; `none` means the fuel ran out before the
function returned (the termination theorem shows this cannot happen with fuel
`maximumRetry + 1`).  The third result component counts how many sweep
iterations (mesh loops) were performed. -/
def collideWithWorld (env : Env) :
    ℕ → Vector3 → Vector3 → Collider → ℕ → Bool → Option ExcludedMeshInfo →
    Option (Vector3 × Collider × ℕ)
  | 0, _, _, _, _, _, _ => none
  | fuel + 1, position, velocity, collider, maximumRetry, slideOnCollide, excludedMesh =>
    if collider.retry ≥ maximumRetry then
      some (position, collider, 0)
    else
      let swept := sweepStep env position velocity collider excludedMesh
      if swept.collisionFound = false then
        some (position.add velocity, swept, 1)
      else
        let velocity2 := postVelocity swept position velocity slideOnCollide
        if velocity2.lengthLe (closeDistance env) then
          some (position, swept, 1)
        else
          match collideWithWorld env fuel position velocity2 { swept with retry := swept.retry + 1 } maximumRetry slideOnCollide excludedMesh with
          | none => none
          | some (fp, cF, n) => some (fp, cF, n + 1)

/-- The collider state prepared by `getNewPosition` before the sweep:
`collidedMesh = null`, `_retry = 0`, and the scaled snapshot fields. -/
def startCollider (collider : Collider) (scaledPosition scaledVelocity : Vector3) : Collider :=
  { collider with
    collidedMesh := none
    retry := 0
    initialVelocity := scaledVelocity
    initialPosition := scaledPosition }

/-- `getNewPosition`: scale into ellipsoid space, reset the collider, run the
sweep, scale back and deliver the callback arguments.  The returned triple is
the single synchronous callback invocation
`onNewPosition(collisionIndex, finalPosition, collidedMesh)`. -/
def getNewPosition (env : Env) (position displacement : Vector3) (collider : Collider)
    (maximumRetry : ℕ) (excludedMesh : Option ExcludedMeshInfo)
    (collisionIndex : ℕ) (slideOnCollide : Bool) : Option (ℕ × Vector3 × Option Mesh) :=
  let scaledPosition := position.divide collider.radius
  let scaledVelocity := displacement.divide collider.radius
  let c0 := startCollider collider scaledPosition scaledVelocity
  match collideWithWorld env (maximumRetry + 1) scaledPosition scaledVelocity c0 maximumRetry slideOnCollide excludedMesh with
  | none => none
  | some (fp, cF, _) => some (collisionIndex, fp.multiply cF.radius, cF.collidedMesh)

/-- The collaborator contract on the narrow-phase test (spec §6): it updates
the collider's nearest-intersection state only, leaving the radius, retry
counter, masks, snapshots and sweep bookkeeping untouched. -/
def NarrowPhaseContract (check : Mesh → Collider → Collider) : Prop :=
  ∀ m c, (check m c).radius = c.radius ∧ (check m c).retry = c.retry ∧
    (check m c).collisionMask = c.collisionMask ∧
    (check m c).initialVelocity = c.initialVelocity ∧
    (check m c).initialPosition = c.initialPosition ∧
    (check m c).basePoint = c.basePoint ∧
    (check m c).velocity = c.velocity ∧
    (check m c).epsilon = c.epsilon

/-- A scene in which no narrow-phase test reports a collision: every test
leaves the collider unchanged (per the collaborator contract a test that finds
no intersection records nothing). -/
def NoCollisionOracle (check : Mesh → Collider → Collider) : Prop :=
  ∀ m c, check m c = c

/-- The spec's precondition on radii: every component is nonzero (strictly
positive in the spec; nonzero is what the algebra needs). -/
def nonzeroRadius (r : Vector3) : Prop :=
  r.x ≠ 0 ∧ r.y ≠ 0 ∧ r.z ≠ 0

/-- The tangential part of `v` with respect to a plane normal `n`: exactly
the slide response applied with nearest normal `n`. -/
def tangentPart (v n : Vector3) : Vector3 :=
  v.sub (Vector3.scale (v.dot n / n.dot n) n)

/-- A concrete candidate mesh passing every filter, used by the planar and
witness scenes. -/
def planeMesh : Mesh :=
  { id := 0, isEnabled := true, checkCollisions := true, hasSubMeshes := true,
    collisionGroup := 1, collisionMask := 1 }

/-- Modelled from the spec: narrow-phase tests live in the mesh collaborator,
outside the core sources.  An infinite-plane obstruction with unit-space
normal `n` reports a collision exactly when the sweep velocity has a component
into the plane, recording the plane's normal as the nearest one. -/
def planeCheck (n : Vector3) (m : Mesh) (c : Collider) : Collider :=
  if c.velocity.dot n < 0 then
    { c with collisionFound := true, collidedMesh := some m, nearestNormal := n }
  else c

/-- A scene holding a single infinite planar obstruction with normal `n`. -/
def planeEnv (n : Vector3) (eps : ℚ) : Env :=
  { sceneMeshes := [planeMesh], checkCollision := planeCheck n, collisionsEpsilon := eps }

/-- A narrow-phase oracle that reports a contact on every test (a fully
obstructed scene, for resting-contact scenarios). -/
def alwaysCheck (m : Mesh) (c : Collider) : Collider :=
  { c with collisionFound := true, collidedMesh := some m }

/-- A fully obstructed one-mesh scene. -/
def alwaysEnv : Env :=
  { sceneMeshes := [planeMesh], checkCollision := alwaysCheck, collisionsEpsilon := 1 / 1000 }

/-- A scene whose single mesh never reports a collision. -/
def idEnv : Env :=
  { sceneMeshes := [planeMesh], checkCollision := fun _ c => c, collisionsEpsilon := 1 / 1000 }

/-- A concrete collider for witnesses: unit radius, default mask. -/
def baseCollider : Collider :=
  { radius := ⟨1, 1, 1⟩, retry := 0, collisionMask := 1, collisionFound := false,
    collidedMesh := none, initialVelocity := Vector3.zero, initialPosition := Vector3.zero,
    basePoint := Vector3.zero, velocity := Vector3.zero, epsilon := 0,
    nearestNormal := Vector3.zero }

end Babylon

namespace Babylon

/-! ### Basic algebra over the embedded vectors -/

theorem Vector3.add_zeroVec (v : Vector3) : v.add Vector3.zero = v := by
  obtain ⟨x, y, z⟩ := v
  simp [Vector3.add, Vector3.zero]

theorem Vector3.lenSq_nonneg (v : Vector3) : 0 ≤ v.lenSq := by
  obtain ⟨x, y, z⟩ := v
  simp only [Vector3.lenSq, Vector3.dot]
  nlinarith [mul_self_nonneg x, mul_self_nonneg y, mul_self_nonneg z]

theorem Vector3.zero_lengthLe {d : ℚ} (hd : 0 ≤ d) : Vector3.zero.lengthLe d := by
  refine ⟨hd, ?_⟩
  simp only [Vector3.lenSq, Vector3.dot, Vector3.zero]
  nlinarith [sq_nonneg d]

theorem Vector3.zero_divide (r : Vector3) : Vector3.zero.divide r = Vector3.zero := by
  simp [Vector3.zero, Vector3.divide]

theorem Vector3.divide_multiply_cancel {r : Vector3} (p : Vector3) (hr : nonzeroRadius r) :
    (p.divide r).multiply r = p := by
  obtain ⟨hx, hy, hz⟩ := hr
  obtain ⟨px, py, pz⟩ := p
  simp [Vector3.divide, Vector3.multiply, div_mul_cancel₀, hx, hy, hz]

theorem Vector3.divide_add_multiply {r : Vector3} (p d : Vector3) (hr : nonzeroRadius r) :
    ((p.divide r).add (d.divide r)).multiply r = p.add d := by
  obtain ⟨hx, hy, hz⟩ := hr
  obtain ⟨px, py, pz⟩ := p
  obtain ⟨dx, dy, dz⟩ := d
  simp only [Vector3.divide, Vector3.add, Vector3.multiply, div_add_div_same, Vector3.mk.injEq]
  exact ⟨div_mul_cancel₀ _ hx, div_mul_cancel₀ _ hy, div_mul_cancel₀ _ hz⟩

theorem Vector3.dot_self_eq_zero_iff (n : Vector3) : n.dot n = 0 ↔ n = Vector3.zero := by
  obtain ⟨x, y, z⟩ := n
  simp only [Vector3.dot, Vector3.zero, Vector3.mk.injEq]
  constructor
  · intro h
    refine ⟨?_, ?_, ?_⟩ <;> nlinarith [sq_nonneg x, sq_nonneg y, sq_nonneg z]
  · rintro ⟨rfl, rfl, rfl⟩
    ring

theorem Vector3.dot_self_ne_zero_of_dot_neg {v n : Vector3} (h : v.dot n < 0) :
    n.dot n ≠ 0 := by
  intro h0
  rw [Vector3.dot_self_eq_zero_iff] at h0
  subst h0
  obtain ⟨x, y, z⟩ := v
  simp [Vector3.dot, Vector3.zero] at h

theorem Vector3.nonzero_of_dot_neg {v n : Vector3} (h : v.dot n < 0) :
    v.x ≠ 0 ∨ v.y ≠ 0 ∨ v.z ≠ 0 := by
  by_contra hall
  push_neg at hall
  obtain ⟨hx, hy, hz⟩ := hall
  obtain ⟨x, y, z⟩ := v
  simp only at hx hy hz
  subst hx; subst hy; subst hz
  simp [Vector3.dot] at h

theorem tangentPart_dot {v n : Vector3} (hn : n.dot n ≠ 0) :
    (tangentPart v n).dot n = 0 := by
  have hexp : (tangentPart v n).dot n = v.dot n - v.dot n / n.dot n * (n.dot n) := by
    simp only [tangentPart, Vector3.sub, Vector3.scale, Vector3.dot]
    ring
  rw [hexp, div_mul_cancel₀ _ hn, sub_self]

theorem tangentPart_ne_zero_of_not_lengthLe {v n : Vector3} {d : ℚ} (hd : 0 ≤ d)
    (h : ¬ (tangentPart v n).lengthLe d) : tangentPart v n ≠ Vector3.zero := by
  intro h0
  exact h (h0 ▸ Vector3.zero_lengthLe hd)

/-! ### The sweep loop -/

theorem foldl_guarded_eq_filter {α β : Type} (p : α → Bool) (f : α → β → β) :
    ∀ (xs : List α) (b : β),
      xs.foldl (fun acc m => if p m then f m acc else acc) b =
        (xs.filter p).foldl (fun acc m => f m acc) b := by
  intro xs
  induction xs with
  | nil => intro b; rfl
  | cons m xs ih =>
    intro b
    by_cases hm : p m
    · simp [List.foldl, List.filter, hm, ih]
    · simp [List.foldl, List.filter, hm, ih]

theorem runSweep_eq_filter (env : Env) (mask : ℕ) (ex : Option ExcludedMeshInfo)
    (ms : List Mesh) (c : Collider) :
    runSweep env mask ex ms c =
      (ms.filter (passesFilter mask ex)).foldl (fun acc m => env.checkCollision m acc) c :=
  foldl_guarded_eq_filter _ _ ms c

theorem runSweep_id {env : Env} (h : NoCollisionOracle env.checkCollision)
    (mask : ℕ) (ex : Option ExcludedMeshInfo) :
    ∀ (ms : List Mesh) (c : Collider), runSweep env mask ex ms c = c := by
  intro ms
  induction ms with
  | nil => intro c; rfl
  | cons m ms ih =>
    intro c
    show runSweep env mask ex ms (if passesFilter mask ex m then env.checkCollision m c else c) = c
    by_cases hm : passesFilter mask ex m
    · rw [if_pos hm, h m c, ih]
    · rw [if_neg hm, ih]

theorem runSweep_pres {env : Env} (h : NarrowPhaseContract env.checkCollision)
    (mask : ℕ) (ex : Option ExcludedMeshInfo) :
    ∀ (ms : List Mesh) (c : Collider),
      (runSweep env mask ex ms c).radius = c.radius ∧
      (runSweep env mask ex ms c).retry = c.retry ∧
      (runSweep env mask ex ms c).collisionMask = c.collisionMask := by
  intro ms
  induction ms with
  | nil => intro c; exact ⟨rfl, rfl, rfl⟩
  | cons m ms ih =>
    intro c
    have hstep : runSweep env mask ex (m :: ms) c =
        runSweep env mask ex ms (if passesFilter mask ex m then env.checkCollision m c else c) := rfl
    rw [hstep]
    by_cases hm : passesFilter mask ex m
    · rw [if_pos hm]
      obtain ⟨h1, h2, h3⟩ := ih (env.checkCollision m c)
      obtain ⟨g1, g2, g3, _, _, _, _, _⟩ := h m c
      exact ⟨h1.trans g1, h2.trans g2, h3.trans g3⟩
    · rw [if_neg hm]
      exact ih c

theorem sweepStep_pres {env : Env} (h : NarrowPhaseContract env.checkCollision)
    (position velocity : Vector3) (collider : Collider) (ex : Option ExcludedMeshInfo) :
    (sweepStep env position velocity collider ex).radius = collider.radius ∧
    (sweepStep env position velocity collider ex).retry = collider.retry ∧
    (sweepStep env position velocity collider ex).collisionMask = collider.collisionMask :=
  runSweep_pres h _ ex _ _

end Babylon

namespace Babylon

/-! ### One-step unfoldings of the recursive sweep -/

theorem collide_budget (env : Env) {collider : Collider} {maximumRetry : ℕ}
    (fuel : ℕ) (position velocity : Vector3) (slideOnCollide : Bool)
    (excludedMesh : Option ExcludedMeshInfo) (h : maximumRetry ≤ collider.retry) :
    collideWithWorld env (fuel + 1) position velocity collider maximumRetry slideOnCollide excludedMesh =
      some (position, collider, 0) := by
  simp [collideWithWorld, h]

theorem collide_nofind (env : Env) {collider : Collider} {maximumRetry : ℕ}
    (fuel : ℕ) {position velocity : Vector3} (slideOnCollide : Bool)
    {excludedMesh : Option ExcludedMeshInfo}
    (h1 : ¬ maximumRetry ≤ collider.retry)
    (h2 : (sweepStep env position velocity collider excludedMesh).collisionFound = false) :
    collideWithWorld env (fuel + 1) position velocity collider maximumRetry slideOnCollide excludedMesh =
      some (position.add velocity, sweepStep env position velocity collider excludedMesh, 1) := by
  simp [collideWithWorld, h1, h2]

theorem collide_halt (env : Env) {collider : Collider} {maximumRetry : ℕ}
    (fuel : ℕ) {position velocity : Vector3} {slideOnCollide : Bool}
    {excludedMesh : Option ExcludedMeshInfo}
    (h1 : ¬ maximumRetry ≤ collider.retry)
    (h2 : (sweepStep env position velocity collider excludedMesh).collisionFound = true)
    (h3 : (postVelocity (sweepStep env position velocity collider excludedMesh) position velocity slideOnCollide).lengthLe (closeDistance env)) :
    collideWithWorld env (fuel + 1) position velocity collider maximumRetry slideOnCollide excludedMesh =
      some (position, sweepStep env position velocity collider excludedMesh, 1) := by
  simp [collideWithWorld, h1, h2, h3]

theorem collide_recurse (env : Env) {collider : Collider} {maximumRetry : ℕ}
    (fuel : ℕ) {position velocity : Vector3} {slideOnCollide : Bool}
    {excludedMesh : Option ExcludedMeshInfo}
    (h1 : ¬ maximumRetry ≤ collider.retry)
    (h2 : (sweepStep env position velocity collider excludedMesh).collisionFound = true)
    (h3 : ¬ (postVelocity (sweepStep env position velocity collider excludedMesh) position velocity slideOnCollide).lengthLe (closeDistance env)) :
    collideWithWorld env (fuel + 1) position velocity collider maximumRetry slideOnCollide excludedMesh =
      match collideWithWorld env fuel position
          (postVelocity (sweepStep env position velocity collider excludedMesh) position velocity slideOnCollide)
          { sweepStep env position velocity collider excludedMesh with
            retry := (sweepStep env position velocity collider excludedMesh).retry + 1 }
          maximumRetry slideOnCollide excludedMesh with
      | none => none
      | some (fp, cF, n) => some (fp, cF, n + 1) := by
  simp [collideWithWorld, h1, h2, h3]

/-! ### Termination, preservation and budget monotonicity -/

theorem collide_total (env : Env) (h : NarrowPhaseContract env.checkCollision) :
    ∀ (fuel : ℕ) (position velocity : Vector3) (collider : Collider) (maximumRetry : ℕ)
      (slideOnCollide : Bool) (excludedMesh : Option ExcludedMeshInfo),
      maximumRetry - collider.retry < fuel →
      ∃ fp cF n,
        collideWithWorld env fuel position velocity collider maximumRetry slideOnCollide excludedMesh =
          some (fp, cF, n) ∧ n ≤ maximumRetry - collider.retry := by
  intro fuel
  induction fuel with
  | zero => intro _ _ _ _ _ _ hlt; omega
  | succ fuel ih =>
    intro position velocity collider maximumRetry slideOnCollide excludedMesh hlt
    by_cases hguard : maximumRetry ≤ collider.retry
    · exact ⟨position, collider, 0, collide_budget env fuel position velocity slideOnCollide excludedMesh hguard, Nat.zero_le _⟩
    · have hretry : (sweepStep env position velocity collider excludedMesh).retry = collider.retry :=
        (sweepStep_pres h position velocity collider excludedMesh).2.1
      by_cases hfound : (sweepStep env position velocity collider excludedMesh).collisionFound = false
      · exact ⟨_, _, 1, collide_nofind env fuel slideOnCollide hguard hfound, by omega⟩
      · have hfound2 : (sweepStep env position velocity collider excludedMesh).collisionFound = true := by
          revert hfound
          cases (sweepStep env position velocity collider excludedMesh).collisionFound <;> simp
        by_cases hlen : (postVelocity (sweepStep env position velocity collider excludedMesh) position velocity slideOnCollide).lengthLe (closeDistance env)
        · exact ⟨_, _, 1, collide_halt env fuel hguard hfound2 hlen, by omega⟩
        · obtain ⟨fp, cF, n, hrun, hn⟩ := ih position
            (postVelocity (sweepStep env position velocity collider excludedMesh) position velocity slideOnCollide)
            { sweepStep env position velocity collider excludedMesh with
              retry := (sweepStep env position velocity collider excludedMesh).retry + 1 }
            maximumRetry slideOnCollide excludedMesh (by simp [hretry]; omega)
          refine ⟨fp, cF, n + 1, ?_, ?_⟩
          · rw [collide_recurse env fuel hguard hfound2 hlen, hrun]
          · simp [hretry] at hn
            omega

theorem collide_pres (env : Env) (h : NarrowPhaseContract env.checkCollision) :
    ∀ (fuel : ℕ) (position velocity : Vector3) (collider : Collider) (maximumRetry : ℕ)
      (slideOnCollide : Bool) (excludedMesh : Option ExcludedMeshInfo)
      (fp : Vector3) (cF : Collider) (n : ℕ),
      collideWithWorld env fuel position velocity collider maximumRetry slideOnCollide excludedMesh =
        some (fp, cF, n) →
      cF.radius = collider.radius ∧ cF.collisionMask = collider.collisionMask := by
  intro fuel
  induction fuel with
  | zero => intro _ _ _ _ _ _ _ _ _ hrun; simp [collideWithWorld] at hrun
  | succ fuel ih =>
    intro position velocity collider maximumRetry slideOnCollide excludedMesh fp cF n hrun
    by_cases hguard : maximumRetry ≤ collider.retry
    · rw [collide_budget env fuel position velocity slideOnCollide excludedMesh hguard] at hrun
      obtain ⟨-, rfl, -⟩ := Prod.mk.injEq .. ▸ (Option.some.injEq .. ▸ hrun :)
      exact ⟨rfl, rfl⟩
    · obtain ⟨hrad, -, hmask⟩ := sweepStep_pres h position velocity collider excludedMesh
      by_cases hfound : (sweepStep env position velocity collider excludedMesh).collisionFound = false
      · rw [collide_nofind env fuel slideOnCollide hguard hfound] at hrun
        cases hrun
        exact ⟨hrad, hmask⟩
      · have hfound2 : (sweepStep env position velocity collider excludedMesh).collisionFound = true := by
          revert hfound
          cases (sweepStep env position velocity collider excludedMesh).collisionFound <;> simp
        by_cases hlen : (postVelocity (sweepStep env position velocity collider excludedMesh) position velocity slideOnCollide).lengthLe (closeDistance env)
        · rw [collide_halt env fuel hguard hfound2 hlen] at hrun
          cases hrun
          exact ⟨hrad, hmask⟩
        · rw [collide_recurse env fuel hguard hfound2 hlen] at hrun
          revert hrun
          cases hinner : collideWithWorld env fuel position
              (postVelocity (sweepStep env position velocity collider excludedMesh) position velocity slideOnCollide)
              { sweepStep env position velocity collider excludedMesh with
                retry := (sweepStep env position velocity collider excludedMesh).retry + 1 }
              maximumRetry slideOnCollide excludedMesh with
          | none => intro hrun; cases hrun
          | some r =>
            obtain ⟨fpI, cFI, nI⟩ := r
            intro hrun
            cases hrun
            obtain ⟨hr, hm⟩ := ih _ _ _ _ _ _ _ _ _ hinner
            simp at hr hm
            exact ⟨hr.trans hrad, hm.trans hmask⟩

end Babylon

namespace Babylon

theorem collide_budget_mono (env : Env) :
    ∀ (fuel1 fuel2 : ℕ) (position velocity : Vector3) (collider : Collider)
      (m1 m2 : ℕ) (slideOnCollide : Bool) (excludedMesh : Option ExcludedMeshInfo)
      (fp1 fp2 : Vector3) (c1 c2 : Collider) (n1 n2 : ℕ),
      m1 ≤ m2 →
      collideWithWorld env fuel1 position velocity collider m1 slideOnCollide excludedMesh =
        some (fp1, c1, n1) →
      collideWithWorld env fuel2 position velocity collider m2 slideOnCollide excludedMesh =
        some (fp2, c2, n2) →
      fp1 = position ∨ fp1 = fp2 := by
  intro fuel1
  induction fuel1 with
  | zero =>
    intro fuel2 position velocity collider m1 m2 s ex fp1 fp2 c1 c2 n1 n2 hm h1 h2
    simp [collideWithWorld] at h1
  | succ fuel1 ih =>
    intro fuel2 position velocity collider m1 m2 s ex fp1 fp2 c1 c2 n1 n2 hm h1 h2
    by_cases hguard1 : m1 ≤ collider.retry
    · rw [collide_budget env fuel1 position velocity s ex hguard1] at h1
      cases h1
      exact Or.inl rfl
    · have hguard2 : ¬ m2 ≤ collider.retry := by omega
      cases fuel2 with
      | zero => simp [collideWithWorld] at h2
      | succ fuel2 =>
        by_cases hfound : (sweepStep env position velocity collider ex).collisionFound = false
        · rw [collide_nofind env fuel1 s hguard1 hfound] at h1
          rw [collide_nofind env fuel2 s hguard2 hfound] at h2
          cases h1
          cases h2
          exact Or.inr rfl
        · have hfound2 : (sweepStep env position velocity collider ex).collisionFound = true := by
            revert hfound
            cases (sweepStep env position velocity collider ex).collisionFound <;> simp
          by_cases hlen : (postVelocity (sweepStep env position velocity collider ex) position velocity s).lengthLe (closeDistance env)
          · rw [collide_halt env fuel1 hguard1 hfound2 hlen] at h1
            cases h1
            exact Or.inl rfl
          · rw [collide_recurse env fuel1 hguard1 hfound2 hlen] at h1
            rw [collide_recurse env fuel2 hguard2 hfound2 hlen] at h2
            revert h1
            cases hinner1 : collideWithWorld env fuel1 position
                (postVelocity (sweepStep env position velocity collider ex) position velocity s)
                { sweepStep env position velocity collider ex with
                  retry := (sweepStep env position velocity collider ex).retry + 1 }
                m1 s ex with
            | none => intro h1; cases h1
            | some r1 =>
              obtain ⟨fpA, cA, nA⟩ := r1
              intro h1
              cases h1
              revert h2
              cases hinner2 : collideWithWorld env fuel2 position
                  (postVelocity (sweepStep env position velocity collider ex) position velocity s)
                  { sweepStep env position velocity collider ex with
                    retry := (sweepStep env position velocity collider ex).retry + 1 }
                  m2 s ex with
              | none => intro h2; cases h2
              | some r2 =>
                obtain ⟨fpB, cB, nB⟩ := r2
                intro h2
                cases h2
                exact ih fuel2 position _ _ m1 m2 s ex _ _ _ _ _ _ hm hinner1 hinner2

end Babylon

namespace Babylon

/-! ### Projection helpers -/

theorem startCollider_retry (c : Collider) (a b : Vector3) : (startCollider c a b).retry = 0 := rfl

theorem startCollider_radius (c : Collider) (a b : Vector3) : (startCollider c a b).radius = c.radius := rfl

theorem startCollider_collidedMesh (c : Collider) (a b : Vector3) : (startCollider c a b).collidedMesh = none := rfl

theorem startCollider_mask (c : Collider) (a b : Vector3) : (startCollider c a b).collisionMask = c.collisionMask := rfl

theorem resetSweep_found (c : Collider) (a b : Vector3) (d : ℚ) : (c.resetSweep a b d).collisionFound = false := rfl

theorem resetSweep_velocity (c : Collider) (a b : Vector3) (d : ℚ) : (c.resetSweep a b d).velocity = b := rfl

theorem resetSweep_radius (c : Collider) (a b : Vector3) (d : ℚ) : (c.resetSweep a b d).radius = c.radius := rfl

theorem resetSweep_collidedMesh (c : Collider) (a b : Vector3) (d : ℚ) : (c.resetSweep a b d).collidedMesh = c.collidedMesh := rfl

/-- Unfolding of `getNewPosition` along a known sweep result. -/
theorem getNewPosition_eq (env : Env) (position displacement : Vector3) (collider : Collider)
    (maximumRetry : ℕ) (excludedMesh : Option ExcludedMeshInfo) (collisionIndex : ℕ)
    (slideOnCollide : Bool) {fp : Vector3} {cF : Collider} {n : ℕ}
    (hrun : collideWithWorld env (maximumRetry + 1) (position.divide collider.radius)
        (displacement.divide collider.radius)
        (startCollider collider (position.divide collider.radius) (displacement.divide collider.radius))
        maximumRetry slideOnCollide excludedMesh = some (fp, cF, n)) :
    getNewPosition env position displacement collider maximumRetry excludedMesh collisionIndex slideOnCollide =
      some (collisionIndex, fp.multiply cF.radius, cF.collidedMesh) := by
  simp only [getNewPosition]
  rw [hrun]

/-! ### Claim theorems -/

/-- C1: the recursive sweep `_collideWithWorld` terminates for every input:
the retry-budget guard is the first branch (a collider at or over budget
returns at once with zero sweep iterations), the retry counter rises by
exactly one per recursive call, and under the narrow-phase collaborator
contract a run started at `_retry = 0` (as `getNewPosition` does) returns
within fuel `maximumRetry + 1` having performed at most `maximumRetry` sweep
iterations. -/
theorem C1_sweep_termination (env : Env) (position velocity : Vector3) (collider : Collider)
    (maximumRetry : ℕ) (slideOnCollide : Bool) (excludedMesh : Option ExcludedMeshInfo)
    (h : NarrowPhaseContract env.checkCollision) (h0 : collider.retry = 0) :
    (∀ (fuel : ℕ) (p v : Vector3) (c : Collider), maximumRetry ≤ c.retry →
      collideWithWorld env (fuel + 1) p v c maximumRetry slideOnCollide excludedMesh = some (p, c, 0)) ∧
    ∃ fp cF n,
      collideWithWorld env (maximumRetry + 1) position velocity collider maximumRetry slideOnCollide excludedMesh =
        some (fp, cF, n) ∧ n ≤ maximumRetry := by
  constructor
  · intro fuel p v c hc
    exact collide_budget env fuel p v slideOnCollide excludedMesh hc
  · obtain ⟨fp, cF, n, hrun, hn⟩ :=
      collide_total env h (maximumRetry + 1) position velocity collider maximumRetry slideOnCollide
        excludedMesh (by omega)
    exact ⟨fp, cF, n, hrun, by omega⟩

/-- Witness for C1 at a concrete scene, collider and budget. -/
theorem C1_witness :
    NarrowPhaseContract idEnv.checkCollision ∧
    ∃ fp cF n,
      collideWithWorld idEnv 4 ⟨0, 0, 0⟩ ⟨1, 0, 0⟩ baseCollider 3 true none = some (fp, cF, n) ∧
        n ≤ 3 := by
  have hc : NarrowPhaseContract idEnv.checkCollision :=
    fun _ _ => ⟨rfl, rfl, rfl, rfl, rfl, rfl, rfl, rfl⟩
  exact ⟨hc, (C1_sweep_termination idEnv ⟨0, 0, 0⟩ ⟨1, 0, 0⟩ baseCollider 3 true none hc rfl).2⟩

/-- C3: with `maximumRetry = 0` the call reports exactly the input position
(and no collided mesh), for every displacement, scene, oracle, excluded mesh
and slide flag; the radii must be nonzero (the spec's precondition). -/
theorem C3_zero_budget (env : Env) (position displacement : Vector3) (collider : Collider)
    (excludedMesh : Option ExcludedMeshInfo) (collisionIndex : ℕ) (slideOnCollide : Bool)
    (hr : nonzeroRadius collider.radius) :
    getNewPosition env position displacement collider 0 excludedMesh collisionIndex slideOnCollide =
      some (collisionIndex, position, none) := by
  rw [getNewPosition_eq env position displacement collider 0 excludedMesh collisionIndex slideOnCollide
      (collide_budget env 0 (position.divide collider.radius) (displacement.divide collider.radius)
        slideOnCollide excludedMesh (Nat.zero_le _))]
  rw [startCollider_radius, startCollider_collidedMesh, Vector3.divide_multiply_cancel position hr]

/-- Witness for C3 at a concrete input. -/
theorem C3_witness :
    nonzeroRadius baseCollider.radius ∧
    getNewPosition idEnv ⟨2, 3, 4⟩ ⟨5, 6, 7⟩ baseCollider 0 none 9 true =
      some (9, ⟨2, 3, 4⟩, none) := by
  have hr : nonzeroRadius baseCollider.radius := by
    refine ⟨?_, ?_, ?_⟩ <;> norm_num [baseCollider]
  exact ⟨hr, C3_zero_budget idEnv ⟨2, 3, 4⟩ ⟨5, 6, 7⟩ baseCollider none 9 true hr⟩

/-- C5: whenever the retry budget is not exhausted and the sweep finds no
collision, the sweep terminates with final position equal to the current
position plus the current velocity argument (the possibly deflected remainder
carried into this iteration), not the originally requested displacement. -/
theorem C5_no_collision_branch (env : Env) (fuel : ℕ) (position velocity : Vector3)
    (collider : Collider) (maximumRetry : ℕ) (slideOnCollide : Bool)
    (excludedMesh : Option ExcludedMeshInfo)
    (h1 : collider.retry < maximumRetry)
    (h2 : (sweepStep env position velocity collider excludedMesh).collisionFound = false) :
    collideWithWorld env (fuel + 1) position velocity collider maximumRetry slideOnCollide excludedMesh =
      some (position.add velocity, sweepStep env position velocity collider excludedMesh, 1) :=
  collide_nofind env fuel slideOnCollide (by omega) h2

/-- Witness for C5 at a concrete iteration whose current velocity differs
from the collider's snapshot of the originally requested displacement. -/
theorem C5_witness :
    baseCollider.retry < 1 ∧
    (sweepStep idEnv ⟨0, 0, 0⟩ ⟨2, 0, 0⟩ baseCollider none).collisionFound = false ∧
    collideWithWorld idEnv 1 ⟨0, 0, 0⟩ ⟨2, 0, 0⟩ baseCollider 1 true none =
      some (Vector3.add ⟨0, 0, 0⟩ ⟨2, 0, 0⟩, sweepStep idEnv ⟨0, 0, 0⟩ ⟨2, 0, 0⟩ baseCollider none, 1) := by
  have h2 : (sweepStep idEnv ⟨0, 0, 0⟩ ⟨2, 0, 0⟩ baseCollider none).collisionFound = false := rfl
  exact ⟨by decide, h2,
    C5_no_collision_branch idEnv 0 ⟨0, 0, 0⟩ ⟨2, 0, 0⟩ baseCollider 1 true none (by decide) h2⟩

/-- C8: the callback triple is produced exactly once per call, before the
function returns, carrying the caller's `collisionIndex` unchanged, the sweep
result scaled back by the collider's radius, and the collided mesh or null. -/
theorem C8_callback (env : Env) (position displacement : Vector3) (collider : Collider)
    (maximumRetry : ℕ) (excludedMesh : Option ExcludedMeshInfo) (collisionIndex : ℕ)
    (slideOnCollide : Bool) (h : NarrowPhaseContract env.checkCollision) :
    ∃ fp cF n,
      collideWithWorld env (maximumRetry + 1) (position.divide collider.radius)
          (displacement.divide collider.radius)
          (startCollider collider (position.divide collider.radius) (displacement.divide collider.radius))
          maximumRetry slideOnCollide excludedMesh = some (fp, cF, n) ∧
      getNewPosition env position displacement collider maximumRetry excludedMesh collisionIndex slideOnCollide =
        some (collisionIndex, fp.multiply collider.radius, cF.collidedMesh) := by
  obtain ⟨fp, cF, n, hrun, -⟩ :=
    collide_total env h (maximumRetry + 1) (position.divide collider.radius)
      (displacement.divide collider.radius)
      (startCollider collider (position.divide collider.radius) (displacement.divide collider.radius))
      maximumRetry slideOnCollide excludedMesh (by rw [startCollider_retry]; omega)
  have hrad : cF.radius = collider.radius :=
    (collide_pres env h _ _ _ _ _ _ _ _ _ _ hrun).1.trans (startCollider_radius ..)
  refine ⟨fp, cF, n, hrun, ?_⟩
  rw [getNewPosition_eq env position displacement collider maximumRetry excludedMesh collisionIndex
      slideOnCollide hrun, hrad]

/-- Witness for C8 at a concrete call. -/
theorem C8_witness :
    NarrowPhaseContract idEnv.checkCollision ∧
    ∃ fp cF n,
      collideWithWorld idEnv 3 (Vector3.divide ⟨1, 1, 1⟩ baseCollider.radius)
          (Vector3.divide ⟨2, 0, 0⟩ baseCollider.radius)
          (startCollider baseCollider (Vector3.divide ⟨1, 1, 1⟩ baseCollider.radius)
            (Vector3.divide ⟨2, 0, 0⟩ baseCollider.radius)) 2 true none = some (fp, cF, n) ∧
      getNewPosition idEnv ⟨1, 1, 1⟩ ⟨2, 0, 0⟩ baseCollider 2 none 5 true =
        some (5, fp.multiply baseCollider.radius, cF.collidedMesh) := by
  have hc : NarrowPhaseContract idEnv.checkCollision :=
    fun _ _ => ⟨rfl, rfl, rfl, rfl, rfl, rfl, rfl, rfl⟩
  exact ⟨hc, C8_callback idEnv ⟨1, 1, 1⟩ ⟨2, 0, 0⟩ baseCollider 2 none 5 true hc⟩

/-- C10: with `maximumRetry = 0` no narrow-phase test is ever consulted (the
run's outcome does not depend on the narrow-phase oracle at all) and the
callback's collided-mesh argument is null, whatever the scene holds. -/
theorem C10_zero_budget_no_tests (env : Env) (position displacement : Vector3) (collider : Collider)
    (excludedMesh : Option ExcludedMeshInfo) (collisionIndex : ℕ) (slideOnCollide : Bool)
    (check2 : Mesh → Collider → Collider) :
    getNewPosition env position displacement collider 0 excludedMesh collisionIndex slideOnCollide =
      some (collisionIndex, (position.divide collider.radius).multiply collider.radius, none) ∧
    getNewPosition { env with checkCollision := check2 } position displacement collider 0
        excludedMesh collisionIndex slideOnCollide =
      getNewPosition env position displacement collider 0 excludedMesh collisionIndex slideOnCollide := by
  constructor
  · rw [getNewPosition_eq env position displacement collider 0 excludedMesh collisionIndex slideOnCollide
        (collide_budget env 0 (position.divide collider.radius) (displacement.divide collider.radius)
          slideOnCollide excludedMesh (Nat.zero_le _))]
    rw [startCollider_radius, startCollider_collidedMesh]
  · rw [getNewPosition_eq env position displacement collider 0 excludedMesh collisionIndex slideOnCollide
        (collide_budget env 0 (position.divide collider.radius) (displacement.divide collider.radius)
          slideOnCollide excludedMesh (Nat.zero_le _))]
    rw [getNewPosition_eq { env with checkCollision := check2 } position displacement collider 0
        excludedMesh collisionIndex slideOnCollide
        (collide_budget { env with checkCollision := check2 } 0 (position.divide collider.radius)
          (displacement.divide collider.radius) slideOnCollide excludedMesh (Nat.zero_le _))]

end Babylon

namespace Babylon

/-- Counterexample to C2 as stated: in a zero-collision scene (the oracle
never reports anything), `maximumRetry = 0` makes `getNewPosition` report the
unmoved starting position, not `p + d`: the claim's "for any maxRetries value,
with no lower bound" fails at `maximumRetry = 0`, `p = (0,0,0)`, `d = (1,0,0)`. -/
theorem C2_counterexample :
    NoCollisionOracle idEnv.checkCollision ∧
    getNewPosition idEnv ⟨0, 0, 0⟩ ⟨1, 0, 0⟩ baseCollider 0 none 0 true =
      some (0, ⟨0, 0, 0⟩, none) ∧
    (⟨0, 0, 0⟩ : Vector3) ≠ Vector3.add ⟨0, 0, 0⟩ ⟨1, 0, 0⟩ := by
  refine ⟨fun _ _ => rfl, ?_, ?_⟩
  · rw [getNewPosition_eq idEnv ⟨0, 0, 0⟩ ⟨1, 0, 0⟩ baseCollider 0 none 0 true
        (collide_budget idEnv 0 (Vector3.divide ⟨0, 0, 0⟩ baseCollider.radius)
          (Vector3.divide ⟨1, 0, 0⟩ baseCollider.radius) true none (Nat.zero_le _))]
    rw [startCollider_radius, startCollider_collidedMesh]
    simp [baseCollider, Vector3.divide, Vector3.multiply]
  · intro hcontra
    simp only [Vector3.add, Vector3.mk.injEq] at hcontra
    norm_num at hcontra

/-- C2 (amended): in a zero-collision scene, for `maximumRetry ≥ 1` the call
reports final position `p + d` and a null collided mesh. -/
theorem C2_unobstructed_amended (env : Env) (position displacement : Vector3) (collider : Collider)
    (maximumRetry : ℕ) (excludedMesh : Option ExcludedMeshInfo) (collisionIndex : ℕ)
    (slideOnCollide : Bool)
    (hchk : NoCollisionOracle env.checkCollision)
    (hr : nonzeroRadius collider.radius)
    (hm : 1 ≤ maximumRetry) :
    getNewPosition env position displacement collider maximumRetry excludedMesh collisionIndex slideOnCollide =
      some (collisionIndex, position.add displacement, none) := by
  obtain ⟨k, rfl⟩ : ∃ k, maximumRetry = k + 1 := ⟨maximumRetry - 1, by omega⟩
  have hsw : sweepStep env (position.divide collider.radius) (displacement.divide collider.radius)
      (startCollider collider (position.divide collider.radius) (displacement.divide collider.radius))
      excludedMesh =
      (startCollider collider (position.divide collider.radius) (displacement.divide collider.radius)).resetSweep
        (position.divide collider.radius) (displacement.divide collider.radius) (closeDistance env) := by
    simp only [sweepStep]
    exact runSweep_id hchk _ _ _ _
  have hfound : (sweepStep env (position.divide collider.radius) (displacement.divide collider.radius)
      (startCollider collider (position.divide collider.radius) (displacement.divide collider.radius))
      excludedMesh).collisionFound = false := by
    rw [hsw]
    exact resetSweep_found ..
  have hguard : ¬ k + 1 ≤ (startCollider collider (position.divide collider.radius)
      (displacement.divide collider.radius)).retry := by
    rw [startCollider_retry]
    omega
  rw [getNewPosition_eq env position displacement collider (k + 1) excludedMesh collisionIndex
      slideOnCollide (collide_nofind env (k + 1) slideOnCollide hguard hfound)]
  rw [hsw, resetSweep_radius, resetSweep_collidedMesh, startCollider_radius, startCollider_collidedMesh]
  rw [Vector3.divide_add_multiply position displacement hr]

/-- Witness for the amended C2 at a concrete input. -/
theorem C2_witness :
    NoCollisionOracle idEnv.checkCollision ∧ nonzeroRadius baseCollider.radius ∧
    getNewPosition idEnv ⟨1, 2, 3⟩ ⟨4, 0, 0⟩ baseCollider 5 none 8 true =
      some (8, Vector3.add ⟨1, 2, 3⟩ ⟨4, 0, 0⟩, none) := by
  have hchk : NoCollisionOracle idEnv.checkCollision := fun _ _ => rfl
  have hr : nonzeroRadius baseCollider.radius := by
    refine ⟨?_, ?_, ?_⟩ <;> norm_num [baseCollider]
  exact ⟨hchk, hr,
    C2_unobstructed_amended idEnv ⟨1, 2, 3⟩ ⟨4, 0, 0⟩ baseCollider 5 none 8 true hchk hr (by omega)⟩

/-- C4: the sweep hands a mesh to the narrow-phase test exactly when it lies
in the candidate set (the excluded mesh's surrounding list when that list is
present, else the scene's meshes), is enabled, has collision checking on, has
sub-meshes, is not the excluded mesh itself, and its collision group meets the
effective mask (the excluded mesh's own mask when an excluded mesh is present,
else the collider's). -/
theorem C4_candidate_filter (env : Env) (collider : Collider) (excludedMesh : Option ExcludedMeshInfo) :
    (∀ (position velocity : Vector3),
      sweepStep env position velocity collider excludedMesh =
        ((candidateMeshes env excludedMesh).filter
            (passesFilter (effectiveMask collider excludedMesh) excludedMesh)).foldl
          (fun acc m => env.checkCollision m acc)
          (collider.resetSweep position velocity (closeDistance env))) ∧
    (∀ m : Mesh,
      m ∈ (candidateMeshes env excludedMesh).filter
          (passesFilter (effectiveMask collider excludedMesh) excludedMesh) ↔
        m ∈ candidateMeshes env excludedMesh ∧ m.isEnabled = true ∧ m.checkCollisions = true ∧
          m.hasSubMeshes = true ∧
          (match excludedMesh with
           | some em => m.id ≠ em.mesh.id
           | none => True) ∧
          effectiveMask collider excludedMesh &&& m.collisionGroup ≠ 0) ∧
    (∀ em, effectiveMask collider (some em) = em.mesh.collisionMask) ∧
    effectiveMask collider none = collider.collisionMask ∧
    (∀ em, candidateMeshes env (some em) = em.surroundingMeshes.getD env.sceneMeshes) ∧
    candidateMeshes env none = env.sceneMeshes := by
  refine ⟨?_, ?_, fun _ => rfl, rfl, fun _ => rfl, rfl⟩
  · intro position velocity
    simp only [sweepStep]
    exact runSweep_eq_filter env _ excludedMesh _ _
  · intro m
    rw [List.mem_filter]
    cases excludedMesh with
    | none =>
      simp only [passesFilter, Bool.and_eq_true, decide_eq_true_eq]
      tauto
    | some em =>
      simp only [passesFilter, Bool.and_eq_true, decide_eq_true_eq]
      tauto

end Babylon

namespace Babylon

/-- Counterexample to C7 as stated: with `maximumRetry = 0` and zero
displacement in a fully obstructed scene, no sweep iteration is performed at
all — the callback reports a null collided mesh even though a single sweep
would have recorded the resting contact. -/
theorem C7_counterexample :
    getNewPosition alwaysEnv ⟨0, 5, 0⟩ ⟨0, 0, 0⟩ baseCollider 0 none 0 true =
      some (0, ⟨0, 5, 0⟩, none) ∧
    (sweepStep alwaysEnv (Vector3.divide ⟨0, 5, 0⟩ baseCollider.radius)
        (Vector3.divide ⟨0, 0, 0⟩ baseCollider.radius)
        (startCollider baseCollider (Vector3.divide ⟨0, 5, 0⟩ baseCollider.radius)
          (Vector3.divide ⟨0, 0, 0⟩ baseCollider.radius)) none).collidedMesh = some planeMesh := by
  constructor
  · rw [getNewPosition_eq alwaysEnv ⟨0, 5, 0⟩ ⟨0, 0, 0⟩ baseCollider 0 none 0 true
        (collide_budget alwaysEnv 0 (Vector3.divide ⟨0, 5, 0⟩ baseCollider.radius)
          (Vector3.divide ⟨0, 0, 0⟩ baseCollider.radius) true none (Nat.zero_le _))]
    rw [startCollider_radius, startCollider_collidedMesh]
    simp [baseCollider, Vector3.divide, Vector3.multiply]
  · rfl

/-- C7 (amended): for `maximumRetry ≥ 1`, a zero-displacement call still runs
one full sweep iteration — the collided mesh delivered to the callback is
exactly the one recorded by that sweep — and the final position equals the
starting position whether or not a collision is detected. -/
theorem C7_zero_displacement_amended (env : Env) (position : Vector3) (collider : Collider)
    (maximumRetry : ℕ) (excludedMesh : Option ExcludedMeshInfo) (collisionIndex : ℕ)
    (slideOnCollide : Bool)
    (h : NarrowPhaseContract env.checkCollision)
    (hm : 1 ≤ maximumRetry)
    (heps : 0 ≤ env.collisionsEpsilon)
    (hr : nonzeroRadius collider.radius) :
    getNewPosition env position Vector3.zero collider maximumRetry excludedMesh collisionIndex slideOnCollide =
      some (collisionIndex, position,
        (sweepStep env (position.divide collider.radius) (Vector3.zero.divide collider.radius)
          (startCollider collider (position.divide collider.radius) (Vector3.zero.divide collider.radius))
          excludedMesh).collidedMesh) := by
  obtain ⟨k, rfl⟩ : ∃ k, maximumRetry = k + 1 := ⟨maximumRetry - 1, by omega⟩
  have hguard : ¬ k + 1 ≤ (startCollider collider (position.divide collider.radius)
      (Vector3.zero.divide collider.radius)).retry := by
    rw [startCollider_retry]
    omega
  have hradsw : (sweepStep env (position.divide collider.radius) (Vector3.zero.divide collider.radius)
      (startCollider collider (position.divide collider.radius) (Vector3.zero.divide collider.radius))
      excludedMesh).radius = collider.radius := by
    rw [(sweepStep_pres h _ _ _ _).1, startCollider_radius]
  by_cases hfound : (sweepStep env (position.divide collider.radius) (Vector3.zero.divide collider.radius)
      (startCollider collider (position.divide collider.radius) (Vector3.zero.divide collider.radius))
      excludedMesh).collisionFound = false
  · rw [getNewPosition_eq env position Vector3.zero collider (k + 1) excludedMesh collisionIndex
        slideOnCollide (collide_nofind env (k + 1) slideOnCollide hguard hfound)]
    rw [hradsw, Vector3.zero_divide, Vector3.add_zeroVec, Vector3.divide_multiply_cancel position hr]
  · have hfound2 : (sweepStep env (position.divide collider.radius) (Vector3.zero.divide collider.radius)
        (startCollider collider (position.divide collider.radius) (Vector3.zero.divide collider.radius))
        excludedMesh).collisionFound = true := by
      revert hfound
      cases (sweepStep env (position.divide collider.radius) (Vector3.zero.divide collider.radius)
        (startCollider collider (position.divide collider.radius) (Vector3.zero.divide collider.radius))
        excludedMesh).collisionFound <;> simp
    have hpost : postVelocity (sweepStep env (position.divide collider.radius)
        (Vector3.zero.divide collider.radius)
        (startCollider collider (position.divide collider.radius) (Vector3.zero.divide collider.radius))
        excludedMesh) (position.divide collider.radius) (Vector3.zero.divide collider.radius)
        slideOnCollide = Vector3.zero.divide collider.radius := by
      rw [Vector3.zero_divide]
      simp [postVelocity, Vector3.zero]
    have hlen : (postVelocity (sweepStep env (position.divide collider.radius)
        (Vector3.zero.divide collider.radius)
        (startCollider collider (position.divide collider.radius) (Vector3.zero.divide collider.radius))
        excludedMesh) (position.divide collider.radius) (Vector3.zero.divide collider.radius)
        slideOnCollide).lengthLe (closeDistance env) := by
      rw [hpost, Vector3.zero_divide]
      exact Vector3.zero_lengthLe (by unfold closeDistance; nlinarith)
    rw [getNewPosition_eq env position Vector3.zero collider (k + 1) excludedMesh collisionIndex
        slideOnCollide (collide_halt env (k + 1) hguard hfound2 hlen)]
    rw [hradsw, Vector3.divide_multiply_cancel position hr]

/-- Witness for the amended C7: a fully obstructed scene with zero
displacement reports the starting position together with the mesh the single
sweep iteration recorded. -/
theorem C7_witness :
    NarrowPhaseContract alwaysEnv.checkCollision ∧ nonzeroRadius baseCollider.radius ∧
    getNewPosition alwaysEnv ⟨0, 5, 0⟩ Vector3.zero baseCollider 1 none 0 true =
      some (0, ⟨0, 5, 0⟩,
        (sweepStep alwaysEnv (Vector3.divide ⟨0, 5, 0⟩ baseCollider.radius)
          (Vector3.zero.divide baseCollider.radius)
          (startCollider baseCollider (Vector3.divide ⟨0, 5, 0⟩ baseCollider.radius)
            (Vector3.zero.divide baseCollider.radius)) none).collidedMesh) := by
  have hc : NarrowPhaseContract alwaysEnv.checkCollision :=
    fun _ _ => ⟨rfl, rfl, rfl, rfl, rfl, rfl, rfl, rfl⟩
  have hr : nonzeroRadius baseCollider.radius := by
    refine ⟨?_, ?_, ?_⟩ <;> norm_num [baseCollider]
  exact ⟨hc, hr,
    C7_zero_displacement_amended alwaysEnv ⟨0, 5, 0⟩ baseCollider 1 none 0 true hc (by omega)
      (by norm_num [alwaysEnv]) hr⟩

end Babylon

namespace Babylon

/-- C9: with everything else fixed, a larger retry budget never yields a
smaller achieved displacement: the squared distance from the input position
to the reported final position is monotone in `maximumRetry` (squared
magnitudes compare the same way magnitudes do). -/
theorem C9_retry_monotonicity (env : Env) (position displacement : Vector3) (collider : Collider)
    (m1 m2 : ℕ) (excludedMesh : Option ExcludedMeshInfo) (collisionIndex : ℕ) (slideOnCollide : Bool)
    (h : NarrowPhaseContract env.checkCollision)
    (hr : nonzeroRadius collider.radius)
    (hm : m1 ≤ m2) :
    ∃ fp1 fp2 cm1 cm2,
      getNewPosition env position displacement collider m1 excludedMesh collisionIndex slideOnCollide =
        some (collisionIndex, fp1, cm1) ∧
      getNewPosition env position displacement collider m2 excludedMesh collisionIndex slideOnCollide =
        some (collisionIndex, fp2, cm2) ∧
      (fp1.sub position).lenSq ≤ (fp2.sub position).lenSq := by
  obtain ⟨fpA, cA, nA, hrunA, -⟩ :=
    collide_total env h (m1 + 1) (position.divide collider.radius) (displacement.divide collider.radius)
      (startCollider collider (position.divide collider.radius) (displacement.divide collider.radius))
      m1 slideOnCollide excludedMesh (by rw [startCollider_retry]; omega)
  obtain ⟨fpB, cB, nB, hrunB, -⟩ :=
    collide_total env h (m2 + 1) (position.divide collider.radius) (displacement.divide collider.radius)
      (startCollider collider (position.divide collider.radius) (displacement.divide collider.radius))
      m2 slideOnCollide excludedMesh (by rw [startCollider_retry]; omega)
  have hradA : cA.radius = collider.radius :=
    (collide_pres env h _ _ _ _ _ _ _ _ _ _ hrunA).1.trans (startCollider_radius ..)
  have hradB : cB.radius = collider.radius :=
    (collide_pres env h _ _ _ _ _ _ _ _ _ _ hrunB).1.trans (startCollider_radius ..)
  have hmono :=
    collide_budget_mono env (m1 + 1) (m2 + 1) (position.divide collider.radius)
      (displacement.divide collider.radius)
      (startCollider collider (position.divide collider.radius) (displacement.divide collider.radius))
      m1 m2 slideOnCollide excludedMesh fpA fpB cA cB nA nB hm hrunA hrunB
  refine ⟨fpA.multiply cA.radius, fpB.multiply cB.radius, cA.collidedMesh, cB.collidedMesh,
    getNewPosition_eq env position displacement collider m1 excludedMesh collisionIndex
      slideOnCollide hrunA,
    getNewPosition_eq env position displacement collider m2 excludedMesh collisionIndex
      slideOnCollide hrunB, ?_⟩
  rcases hmono with hpa | hab
  · rw [hpa, hradA, Vector3.divide_multiply_cancel position hr]
    have hzero : position.sub position = Vector3.zero := by
      obtain ⟨px, py, pz⟩ := position
      simp [Vector3.sub, Vector3.zero]
    rw [hzero]
    have h0 : Vector3.zero.lenSq = 0 := by
      simp [Vector3.lenSq, Vector3.dot, Vector3.zero]
    rw [h0]
    exact Vector3.lenSq_nonneg _
  · rw [hab, hradA, hradB]

/-- Witness for C9 at concrete budgets 1 and 2. -/
theorem C9_witness :
    NarrowPhaseContract idEnv.checkCollision ∧ nonzeroRadius baseCollider.radius ∧
    ∃ fp1 fp2 cm1 cm2,
      getNewPosition idEnv ⟨0, 0, 0⟩ ⟨3, 0, 0⟩ baseCollider 1 none 0 true = some (0, fp1, cm1) ∧
      getNewPosition idEnv ⟨0, 0, 0⟩ ⟨3, 0, 0⟩ baseCollider 2 none 0 true = some (0, fp2, cm2) ∧
      (fp1.sub ⟨0, 0, 0⟩).lenSq ≤ (fp2.sub ⟨0, 0, 0⟩).lenSq := by
  have hc : NarrowPhaseContract idEnv.checkCollision :=
    fun _ _ => ⟨rfl, rfl, rfl, rfl, rfl, rfl, rfl, rfl⟩
  have hr : nonzeroRadius baseCollider.radius := by
    refine ⟨?_, ?_, ?_⟩ <;> norm_num [baseCollider]
  exact ⟨hc, hr,
    C9_retry_monotonicity idEnv ⟨0, 0, 0⟩ ⟨3, 0, 0⟩ baseCollider 1 2 none 0 true hc hr (by omega)⟩

end Babylon

namespace Babylon

/-! ### The single-plane scene -/

theorem passesFilter_planeMesh : passesFilter 1 none planeMesh = true := by decide

theorem planeSweep (n : Vector3) (eps : ℚ) (c : Collider) (pos vel : Vector3)
    (hc : c.collisionMask = 1) :
    sweepStep (planeEnv n eps) pos vel c none =
      planeCheck n planeMesh (c.resetSweep pos vel (eps * 10)) := by
  simp only [sweepStep, effectiveMask, candidateMeshes, planeEnv, closeDistance, runSweep,
    List.foldl, hc, passesFilter_planeMesh, if_true]

theorem planeCheck_neg {n : Vector3} (m : Mesh) {c : Collider} (h : c.velocity.dot n < 0) :
    planeCheck n m c =
      { c with collisionFound := true, collidedMesh := some m, nearestNormal := n } := by
  simp [planeCheck, h]

theorem planeCheck_nonneg {n : Vector3} (m : Mesh) {c : Collider} (h : ¬ c.velocity.dot n < 0) :
    planeCheck n m c = c := by
  simp [planeCheck, h]

theorem Vector3.divide_one (w : Vector3) : w.divide ⟨1, 1, 1⟩ = w := by
  obtain ⟨x, y, z⟩ := w
  simp [Vector3.divide]

theorem Vector3.multiply_one (w : Vector3) : w.multiply ⟨1, 1, 1⟩ = w := by
  obtain ⟨x, y, z⟩ := w
  simp [Vector3.multiply]

/-- C6: against a single infinite planar obstruction and a velocity with a
nonzero component into the plane whose tangential remainder exceeds the
proximity threshold, sliding keeps the tangential motion (the final position
advances by the tangential projection of the velocity, which is nonzero and
parallel to the plane), while `slideOnCollide = false` zeroes the velocity at
first contact and reports zero net displacement. -/
theorem C6_plane_slide (n v p : Vector3) (eps : ℚ) (collider : Collider)
    (maximumRetry collisionIndex : ℕ)
    (hneg : v.dot n < 0)
    (hlen : ¬ (tangentPart v n).lengthLe (eps * 10))
    (hm : 2 ≤ maximumRetry)
    (heps : 0 ≤ eps)
    (hrad : collider.radius = ⟨1, 1, 1⟩)
    (hmask : collider.collisionMask = 1) :
    (getNewPosition (planeEnv n eps) p v collider maximumRetry none collisionIndex true =
        some (collisionIndex, p.add (tangentPart v n), some planeMesh) ∧
      getNewPosition (planeEnv n eps) p v collider maximumRetry none collisionIndex false =
        some (collisionIndex, p, some planeMesh) ∧
      tangentPart v n ≠ Vector3.zero ∧
      (tangentPart v n).dot n = 0) := by
  obtain ⟨j, rfl⟩ : ∃ j, maximumRetry = j + 2 := ⟨maximumRetry - 2, by omega⟩
  have hnn : n.dot n ≠ 0 := Vector3.dot_self_ne_zero_of_dot_neg hneg
  have htd : (tangentPart v n).dot n = 0 := tangentPart_dot hnn
  have heps10 : (0 : ℚ) ≤ eps * 10 := by nlinarith
  have htnz : tangentPart v n ≠ Vector3.zero := tangentPart_ne_zero_of_not_lengthLe heps10 hlen
  have hvnz : v.x ≠ 0 ∨ v.y ≠ 0 ∨ v.z ≠ 0 := Vector3.nonzero_of_dot_neg hneg
  set sp := p.divide collider.radius with hspdef
  set sv := v.divide collider.radius with hsvdef
  have hsp : sp = p := by rw [hspdef, hrad, Vector3.divide_one]
  have hsv : sv = v := by rw [hsvdef, hrad, Vector3.divide_one]
  set c0 := startCollider collider sp sv with hc0def
  have hguard1 : ¬ j + 2 ≤ c0.retry := by
    rw [hc0def, startCollider_retry]
    omega
  have hc0mask : c0.collisionMask = 1 := by
    rw [hc0def, startCollider_mask, hmask]
  have hdot1 : (c0.resetSweep sp sv (eps * 10)).velocity.dot n < 0 := by
    rw [resetSweep_velocity, hsv]
    exact hneg
  have hsw1 : sweepStep (planeEnv n eps) sp sv c0 none =
      { c0.resetSweep sp sv (eps * 10) with
        collisionFound := true, collidedMesh := some planeMesh, nearestNormal := n } := by
    rw [planeSweep n eps c0 sp sv hc0mask, planeCheck_neg planeMesh hdot1]
  have hfound1 : (sweepStep (planeEnv n eps) sp sv c0 none).collisionFound = true := by
    rw [hsw1]
  have hcond : sv.x ≠ 0 ∨ sv.y ≠ 0 ∨ sv.z ≠ 0 := by
    rw [hsv]
    exact hvnz
  refine ⟨?_, ?_, htnz, htd⟩
  · -- slideOnCollide = true: one deflection, then an unobstructed tangential move
    have hpost1 : postVelocity (sweepStep (planeEnv n eps) sp sv c0 none) sp sv true =
        tangentPart v n := by
      rw [hsw1]
      simp only [postVelocity]
      rw [if_pos hcond]
      show Collider.getResponse _ sp sv true = tangentPart v n
      show tangentPart sv n = tangentPart v n
      rw [hsv]
    have hlen1 : ¬ (postVelocity (sweepStep (planeEnv n eps) sp sv c0 none) sp sv true).lengthLe
        (closeDistance (planeEnv n eps)) := by
      rw [hpost1]
      exact hlen
    have hc1mask : ({ sweepStep (planeEnv n eps) sp sv c0 none with
        retry := (sweepStep (planeEnv n eps) sp sv c0 none).retry + 1 } : Collider).collisionMask = 1 := by
      rw [hsw1]
      show c0.collisionMask = 1
      exact hc0mask
    have hdot2 : ¬ (({ sweepStep (planeEnv n eps) sp sv c0 none with
        retry := (sweepStep (planeEnv n eps) sp sv c0 none).retry + 1 } : Collider).resetSweep sp
          (tangentPart v n) (eps * 10)).velocity.dot n < 0 := by
      rw [resetSweep_velocity, htd]
      exact lt_irrefl 0
    have hsw2 : sweepStep (planeEnv n eps) sp (tangentPart v n)
        { sweepStep (planeEnv n eps) sp sv c0 none with
          retry := (sweepStep (planeEnv n eps) sp sv c0 none).retry + 1 } none =
        ({ sweepStep (planeEnv n eps) sp sv c0 none with
          retry := (sweepStep (planeEnv n eps) sp sv c0 none).retry + 1 } : Collider).resetSweep sp
            (tangentPart v n) (eps * 10) := by
      rw [planeSweep n eps _ sp (tangentPart v n) hc1mask, planeCheck_nonneg planeMesh hdot2]
    have hguard2 : ¬ j + 2 ≤ ({ sweepStep (planeEnv n eps) sp sv c0 none with
        retry := (sweepStep (planeEnv n eps) sp sv c0 none).retry + 1 } : Collider).retry := by
      rw [hsw1]
      show ¬ j + 2 ≤ c0.retry + 1
      rw [hc0def, startCollider_retry]
      omega
    have hfound2 : (sweepStep (planeEnv n eps) sp (tangentPart v n)
        { sweepStep (planeEnv n eps) sp sv c0 none with
          retry := (sweepStep (planeEnv n eps) sp sv c0 none).retry + 1 } none).collisionFound = false := by
      rw [hsw2]
      exact resetSweep_found ..
    have hrun2 := collide_nofind (planeEnv n eps) (j + 1) true hguard2 hfound2
    have hrun1 : collideWithWorld (planeEnv n eps) (j + 2 + 1) sp sv c0 (j + 2) true none =
        some (sp.add (tangentPart v n),
          sweepStep (planeEnv n eps) sp (tangentPart v n)
            { sweepStep (planeEnv n eps) sp sv c0 none with
              retry := (sweepStep (planeEnv n eps) sp sv c0 none).retry + 1 } none, 2) := by
      rw [collide_recurse (planeEnv n eps) (j + 2) hguard1 hfound1 hlen1, hpost1, hrun2]
    rw [getNewPosition_eq (planeEnv n eps) p v collider (j + 2) none collisionIndex true hrun1]
    rw [hsw2]
    have hradF : (({ sweepStep (planeEnv n eps) sp sv c0 none with
        retry := (sweepStep (planeEnv n eps) sp sv c0 none).retry + 1 } : Collider).resetSweep sp
          (tangentPart v n) (eps * 10)).radius = ⟨1, 1, 1⟩ := by
      rw [resetSweep_radius]
      rw [hsw1]
      show c0.radius = _
      rw [hc0def, startCollider_radius, hrad]
    rw [hradF, Vector3.multiply_one]
    have hcmF : (({ sweepStep (planeEnv n eps) sp sv c0 none with
        retry := (sweepStep (planeEnv n eps) sp sv c0 none).retry + 1 } : Collider).resetSweep sp
          (tangentPart v n) (eps * 10)).collidedMesh = some planeMesh := by
      rw [resetSweep_collidedMesh]
      rw [hsw1]
    rw [hcmF, hsp]
  · -- slideOnCollide = false: the velocity is zeroed at first contact
    have hpost1 : postVelocity (sweepStep (planeEnv n eps) sp sv c0 none) sp sv false =
        Vector3.zero := by
      simp only [postVelocity]
      rw [if_pos hcond]
      simp
    have hlen1 : (postVelocity (sweepStep (planeEnv n eps) sp sv c0 none) sp sv false).lengthLe
        (closeDistance (planeEnv n eps)) := by
      rw [hpost1]
      exact Vector3.zero_lengthLe heps10
    have hrun1 := collide_halt (planeEnv n eps) (j + 2) hguard1 hfound1 hlen1
    rw [getNewPosition_eq (planeEnv n eps) p v collider (j + 2) none collisionIndex false hrun1]
    rw [hsw1]
    have hradF : (({ c0.resetSweep sp sv (eps * 10) with
        collisionFound := true, collidedMesh := some planeMesh, nearestNormal := n } : Collider)).radius = ⟨1, 1, 1⟩ := by
      show c0.radius = _
      rw [hc0def, startCollider_radius, hrad]
    rw [hradF, Vector3.multiply_one, hsp]

end Babylon

namespace Babylon

/-- Witness for C6: the plane `y = 0` with normal `(0,1,0)` and velocity
`(1,-1,0)` at a concrete collider and budget. -/
theorem C6_witness :
    Vector3.dot ⟨1, -1, 0⟩ ⟨0, 1, 0⟩ < 0 ∧
    ¬ (tangentPart ⟨1, -1, 0⟩ ⟨0, 1, 0⟩).lengthLe (1 / 1000 * 10) ∧
    (getNewPosition (planeEnv ⟨0, 1, 0⟩ (1 / 1000)) ⟨0, 0, 0⟩ ⟨1, -1, 0⟩ baseCollider 2 none 0 true =
        some (0, Vector3.add ⟨0, 0, 0⟩ (tangentPart ⟨1, -1, 0⟩ ⟨0, 1, 0⟩), some planeMesh) ∧
      getNewPosition (planeEnv ⟨0, 1, 0⟩ (1 / 1000)) ⟨0, 0, 0⟩ ⟨1, -1, 0⟩ baseCollider 2 none 0 false =
        some (0, ⟨0, 0, 0⟩, some planeMesh) ∧
      tangentPart ⟨1, -1, 0⟩ ⟨0, 1, 0⟩ ≠ Vector3.zero ∧
      (tangentPart ⟨1, -1, 0⟩ ⟨0, 1, 0⟩).dot ⟨0, 1, 0⟩ = 0) := by
  have h1 : Vector3.dot ⟨1, -1, 0⟩ ⟨0, 1, 0⟩ < (0 : ℚ) := by
    norm_num [Vector3.dot]
  have h2 : ¬ (tangentPart ⟨1, -1, 0⟩ ⟨0, 1, 0⟩).lengthLe (1 / 1000 * 10) := by
    simp only [tangentPart, Vector3.sub, Vector3.scale, Vector3.dot, Vector3.lengthLe, Vector3.lenSq]
    norm_num
  exact ⟨h1, h2,
    C6_plane_slide ⟨0, 1, 0⟩ ⟨1, -1, 0⟩ ⟨0, 0, 0⟩ (1 / 1000) baseCollider 2 0 h1 h2 (by omega)
      (by norm_num) rfl rfl⟩

end Babylon
